import Mathlib

/-!
Verification development for the flower-shooter multiplayer stack:
* the relay server (src/server/multiplayer/index.js): room registry,
  session table, message handlers, sanitizer;
* the client websocket transport (reconnect backoff, bounded FIFO queue);
* the client multiplayer system (remote players, plant replication).

Numbers carried by messages are modelled as rationals: the JavaScript
code only clamps, rounds and compares them, and all constants involved
are exactly representable.  A JavaScript value that fails the
"numeric-shaped" test of the code (`!v || typeof v.x !== `number) is modelled as
`none`; a numeric vector / quaternion is `some ⟨…⟩`.
-/

namespace FlowerShooter

/-- 3-component vector of a pose, as carried on the wire. -/
structure Vec3 where
  x : ℚ
  y : ℚ
  z : ℚ
deriving DecidableEq

/-- Quaternion of a pose, as carried on the wire. -/
structure Quat where
  x : ℚ
  y : ℚ
  z : ℚ
  w : ℚ
deriving DecidableEq

/-- Math.round of JavaScript: round half toward positive infinity. -/
def jsRound (x : ℚ) : ℤ := ⌊x + 1/2⌋

/-- Math.round(x * 1000) / 1000 - rounding to three decimal places. -/
def round3 (x : ℚ) : ℚ := (jsRound (x * 1000) : ℚ) / 1000

/-- clampVector3 from src/server/multiplayer/index.js: non-numeric input
gives the zero vector, otherwise each axis is rounded to 3 decimals and
clamped to [-1000, 1000] (round first, then clamp, as in the source). -/
def clampVector3 : Option Vec3 → Vec3
  | none => ⟨0, 0, 0⟩
  | some v =>
      ⟨max (-1000) (min 1000 (round3 v.x)),
       max (-1000) (min 1000 (round3 v.y)),
       max (-1000) (min 1000 (round3 v.z))⟩

/-- clampQuaternion from src/server/multiplayer/index.js: non-numeric
input gives the identity quaternion, otherwise each component is rounded
to 3 decimals and clamped to [-1, 1]. -/
def clampQuaternion : Option Quat → Quat
  | none => ⟨0, 0, 0, 1⟩
  | some q =>
      ⟨max (-1) (min 1 (round3 q.x)),
       max (-1) (min 1 (round3 q.y)),
       max (-1) (min 1 (round3 q.z)),
       max (-1) (min 1 (round3 q.w))⟩

/-!
Client transport (TransportWebSocket)

The transport wraps a websocket: a bounded FIFO outbound queue used
while disconnected, and reconnection with exponential backoff.  Messages
are already-serialized strings (the source serializes with
JSON.stringify before queueing).  Whether the underlying socket accepts
a write is an external condition, passed in as a boolean.
-/

/-- The fields of TransportWebSocket that the queue and reconnect logic
read and write. -/
structure Transport where
  isConnected : Bool
  messageQueue : List String
  maxQueueSize : Nat
  reconnectAttempts : Nat
  maxReconnectAttempts : Nat
  reconnectDelay : Nat
  maxReconnectDelay : Nat
deriving DecidableEq

/-- Field values set by the TransportWebSocket constructor. -/
def Transport.mk0 : Transport :=
  { isConnected := false
    messageQueue := []
    maxQueueSize := 100
    reconnectAttempts := 0
    maxReconnectAttempts := 10
    reconnectDelay := 1000
    maxReconnectDelay := 30000 }

/-- queueMessage: drop the oldest entry when the queue is full, then
append the new message. -/
def queueMessage (t : Transport) (m : String) : Transport :=
  let q := if t.maxQueueSize ≤ t.messageQueue.length
    then t.messageQueue.tail else t.messageQueue
  { t with messageQueue := q ++ [m] }

/-- send: deliver immediately when connected and the socket write
succeeds (returns true and the delivered message); otherwise queue the
serialized message and return false.  `wsOpen` models
`ws.readyState === WebSocket.OPEN`, `sendOk` models the socket write not
throwing. -/
def Transport.send (t : Transport) (m : String) (wsOpen sendOk : Bool) :
    Transport × Bool × List String :=
  if t.isConnected && wsOpen then
    if sendOk then (t, true, [m])
    else (queueMessage t m, false, [])
  else (queueMessage t m, false, [])

/-- The loop body of flushQueue: shift a message, try to send it; on a
failed write put it back at the front and stop.  `oks` lists the write
outcomes in order (exhausted oracle = writes succeed).  Returns the
messages sent, in order, and the remaining queue. -/
def flushLoop : List String → List Bool → List String × List String
  | [], _ => ([], [])
  | m :: rest, oks =>
      if oks.headD true then
        let r := flushLoop rest oks.tail
        (m :: r.1, r.2)
      else ([], m :: rest)

/-- onOpen: mark connected, reset the backoff state, flush the queue.
Returns the new transport state and the messages written. -/
def Transport.onOpen (t : Transport) (oks : List Bool) :
    Transport × List String :=
  let t1 := { t with
    isConnected := true
    reconnectAttempts := 0
    reconnectDelay := 1000 }
  let fl := flushLoop t1.messageQueue oks
  ({ t1 with messageQueue := fl.2 }, fl.1)

/-- scheduleReconnect, fused with its timer callback (the callback
increments reconnectAttempts, then calls connect).  Returns the new
state, the delay the timer was armed with (none when no timer was
armed), and whether maxReconnectAttemptsReached was emitted. -/
def scheduleReconnect (t : Transport) : Transport × Option Nat × Bool :=
  if t.maxReconnectAttempts ≤ t.reconnectAttempts then (t, none, true)
  else
    let delay := min (t.reconnectDelay * 2 ^ t.reconnectAttempts)
      t.maxReconnectDelay
    ({ t with reconnectAttempts := t.reconnectAttempts + 1 },
     some delay, false)

/-- The transport state after k consecutive failed reconnect rounds. -/
def iterSched (t : Transport) : Nat → Transport
  | 0 => t
  | k + 1 => iterSched (scheduleReconnect t).1 k

/-- Delay armed by the k-th reconnect round (counting from 0), together
with the terminal-event flag of that round. -/
def nthDelay (t : Transport) (k : Nat) : Option Nat × Bool :=
  ((scheduleReconnect (iterSched t k)).2.1,
   (scheduleReconnect (iterSched t k)).2.2)

/-!
Relay server (src/server/multiplayer/index.js)

Connections are identified by naturals.  JavaScript Maps are embedded as
association lists with unique keys (Map.set updates in place or appends,
Map.delete removes the entry); the member Set of a room is a duplicate-
free list in insertion order (Set.add appends when absent, Set.delete
removes the element).  Timestamps (Date.now()) are naturals, one value
per handled event.  All modelled sockets are open, so the
readyState === OPEN guard of the low-level send always passes.
-/

/-- Map.get on an association list. -/
def lookupA {α β : Type} [DecidableEq α] : List (α × β) → α → Option β
  | [], _ => none
  | (k, v) :: rest, key => if k = key then some v else lookupA rest key

/-- Map.set on an association list: overwrite in place, else append. -/
def insertA {α β : Type} [DecidableEq α] :
    List (α × β) → α → β → List (α × β)
  | [], k, v => [(k, v)]
  | (k0, v0) :: rest, k, v =>
      if k0 = k then (k, v) :: rest else (k0, v0) :: insertA rest k v

/-- Map.delete on an association list. -/
def removeA {α β : Type} [DecidableEq α] : List (α × β) → α → List (α × β)
  | [], _ => []
  | (k0, v0) :: rest, k =>
      if k0 = k then rest else (k0, v0) :: removeA rest k

/-- Set.add: append when absent (insertion order preserved). -/
def setAdd (l : List Nat) (x : Nat) : List Nat :=
  if x ∈ l then l else l ++ [x]

/-- Set.delete: remove the element. -/
def setDelete (l : List Nat) (x : Nat) : List Nat :=
  l.filter (fun y => y ≠ x)

/-- Per-connection session record (`this.clients` values). -/
structure ClientInfo where
  clientId : String
  room : String
  lastPing : Nat
  lastSnapshot : Option Nat
deriving DecidableEq

/-- Relay state: `this.rooms` (roomId -> member set) and `this.clients`
(connection -> session). -/
structure ServerState where
  rooms : List (String × List Nat)
  clients : List (Nat × ClientInfo)
deriving DecidableEq

/-- State of a freshly started server. -/
def initState : ServerState := ⟨[], []⟩

/-- A pose pair {p, q} inside a snapshot; each part is none when absent
or not numeric-shaped. -/
structure PosePair where
  p : Option Vec3
  q : Option Quat
deriving DecidableEq

/-- Inbound snapshot payload; a none field is one that is absent (falsy)
in the JSON message.  `t := some 0` is also falsy in the source
(`t || Date.now()`), handled by `jsTimestamp`. -/
structure SnapshotMsg where
  t : Option Nat
  head : Option PosePair
  lh : Option PosePair
  rh : Option PosePair
deriving DecidableEq

/-- Inbound plant-event payload.  `pos`/`quat` are none when the field
is absent (falsy, so the handler rejects), some none when present but
not numeric-shaped (accepted; the sanitizer zeroes it). -/
structure PlantMsg where
  plantType : String
  pos : Option (Option Vec3)
  quat : Option (Option Quat)
  t : Option Nat
deriving DecidableEq

/-- `x || Date.now()`: a missing or zero timestamp becomes `now`. -/
def jsTimestamp (t : Option Nat) (now : Nat) : Nat :=
  match t with
  | none => now
  | some v => if v = 0 then now else v

/-- Sanitized pose {p, q} as broadcast by the relay. -/
structure SanPose where
  p : Vec3
  q : Quat
deriving DecidableEq

/-- Sanitized snapshot body as broadcast by the relay. -/
structure SanSnapshot where
  t : Nat
  head : SanPose
  lh : SanPose
  rh : SanPose
deriving DecidableEq

/-- sanitizeSnapshot: reject when head, lh or rh is absent; otherwise
clamp every sub-field (absent sub-fields clamp to the defaults). -/
def sanitizeSnapshot (m : SnapshotMsg) (now : Nat) : Option SanSnapshot :=
  match m.head, m.lh, m.rh with
  | some h, some l, some r =>
      some
        { t := jsTimestamp m.t now
          head := ⟨clampVector3 h.p, clampQuaternion h.q⟩
          lh := ⟨clampVector3 l.p, clampQuaternion l.q⟩
          rh := ⟨clampVector3 r.p, clampQuaternion r.q⟩ }
  | _, _, _ => none

/-- Messages the relay sends to clients. -/
inductive OutMsg where
  | helloAck (clientId room : String)
  | joinMsg (clientId : String) (timestamp : Nat)
  | leaveMsg (clientId : String) (timestamp : Nat)
  | snapshotOut (clientId : String) (snap : SanSnapshot)
  | plantOut (clientId plantType : String) (pos : Vec3) (quat : Quat)
      (t : Nat)
  | errorMsg (error : String) (timestamp : Nat)
deriving DecidableEq

/-- Observable effects of one handled event. -/
inductive Effect where
  | sendTo (ws : Nat) (m : OutMsg)
  | terminate (ws : Nat)
deriving DecidableEq

/-- broadcastToRoom: send to every open member of the room except the
excluded connection (null exclusion excludes nobody). -/
def broadcastToRoom (rooms : List (String × List Nat)) (roomId : String)
    (m : OutMsg) (exclude : Option Nat) : List Effect :=
  match lookupA rooms roomId with
  | none => []
  | some members =>
      (members.filter (fun c => some c ≠ exclude)).map
        (fun c => Effect.sendTo c m)

/-- cleanupClient: drop the membership of the connection in its room (the
room entry itself is kept, even when it becomes empty) and its session. -/
def cleanupClient (s : ServerState) (ws : Nat) : ServerState :=
  match lookupA s.clients ws with
  | none => s
  | some info =>
      { rooms :=
          match lookupA s.rooms info.room with
          | none => s.rooms
          | some members =>
              insertA s.rooms info.room (setDelete members ws)
        clients := removeA s.clients ws }

/-- handleHello: require a non-empty clientId; tear down any prior
session of this connection; register the session; add the connection to
the room (creating it lazily); broadcast join to the room excluding the
sender; ack the sender. -/
def handleHello (s : ServerState) (ws : Nat) (clientId : String)
    (roomOpt : Option String) (now : Nat) : ServerState × List Effect :=
  let room := roomOpt.getD "default"
  if clientId = "" then
    (s, [Effect.sendTo ws (OutMsg.errorMsg "clientId required" now)])
  else
    let s1 := cleanupClient s ws
    let s2 : ServerState :=
      { rooms := s1.rooms
        clients := insertA s1.clients ws
          ⟨clientId, room, now, none⟩ }
    let members := (lookupA s2.rooms room).getD []
    let s3 : ServerState :=
      { s2 with rooms := insertA s2.rooms room (setAdd members ws) }
    (s3,
     broadcastToRoom s3.rooms room (OutMsg.joinMsg clientId now)
       (some ws) ++
     [Effect.sendTo ws (OutMsg.helloAck clientId room)])

/-- The rate-limit guard of handleSnapshot:
`client.lastSnapshot && now - client.lastSnapshot < 40`.  Nat
subtraction truncates at 0, which agrees with the JavaScript comparison
for every now ≥ lastSnapshot (and Date.now() values are nondecreasing
across the messages of a session). -/
def rateLimited (lastSnapshot : Option Nat) (now : Nat) : Bool :=
  match lastSnapshot with
  | some last => now - last < 40
  | none => false

/-- handleSnapshot: require a session; drop silently when the previous
rate-stamp is less than 40ms old; otherwise stamp, sanitize (silently
dropping invalid payloads) and broadcast with the clientId of the sender,
excluding the sender. -/
def handleSnapshot (s : ServerState) (ws : Nat) (m : SnapshotMsg)
    (now : Nat) : ServerState × List Effect :=
  match lookupA s.clients ws with
  | none =>
      (s, [Effect.sendTo ws (OutMsg.errorMsg "Not authenticated" now)])
  | some client =>
      if rateLimited client.lastSnapshot now then
        (s, [])
      else
        let client1 := { client with lastSnapshot := some now }
        let s1 : ServerState :=
          { s with clients := insertA s.clients ws client1 }
        match sanitizeSnapshot m now with
        | none => (s1, [])
        | some san =>
            (s1,
             broadcastToRoom s1.rooms client.room
               (OutMsg.snapshotOut client.clientId san) (some ws))

/-- handlePlantEvent: require a session; require plantType, pos and quat
present (else an error reply); sanitize and broadcast excluding the
sender. -/
def handlePlantEvent (s : ServerState) (ws : Nat) (m : PlantMsg)
    (now : Nat) : ServerState × List Effect :=
  match lookupA s.clients ws with
  | none =>
      (s, [Effect.sendTo ws (OutMsg.errorMsg "Not authenticated" now)])
  | some client =>
      match m.pos, m.quat with
      | some pos, some quat =>
          if m.plantType = "" then
            (s, [Effect.sendTo ws
              (OutMsg.errorMsg "Invalid plant event data" now)])
          else
            (s,
             broadcastToRoom s.rooms client.room
               (OutMsg.plantOut client.clientId m.plantType
                 (clampVector3 pos) (clampQuaternion quat)
                 (jsTimestamp m.t now))
               (some ws))
      | _, _ =>
          (s, [Effect.sendTo ws
            (OutMsg.errorMsg "Invalid plant event data" now)])

/-- handlePong: update the liveness stamp of the session; silently ignore a
pong from a connection without a session. -/
def handlePong (s : ServerState) (ws : Nat) (now : Nat) :
    ServerState × List Effect :=
  match lookupA s.clients ws with
  | none => (s, [])
  | some client =>
      let client1 := { client with lastPing := now }
      ({ s with clients := insertA s.clients ws client1 }, [])

/-- handleDisconnect: remove the session and its room membership; delete
the room when it becomes empty, otherwise broadcast leave to the
remaining members. -/
def handleDisconnect (s : ServerState) (ws : Nat) (now : Nat) :
    ServerState × List Effect :=
  match lookupA s.clients ws with
  | none => (s, [])
  | some client =>
      match lookupA s.rooms client.room with
      | none =>
          ({ rooms := s.rooms, clients := removeA s.clients ws }, [])
      | some members =>
          let members1 := setDelete members ws
          if members1 = [] then
            ({ rooms := removeA s.rooms client.room
               clients := removeA s.clients ws }, [])
          else
            let rooms1 := insertA s.rooms client.room members1
            ({ rooms := rooms1, clients := removeA s.clients ws },
             broadcastToRoom rooms1 client.room
               (OutMsg.leaveMsg client.clientId now) none)

/-- Bodies of inbound client messages (`other` covers unknown types,
which the relay ignores). -/
inductive ClientMsg where
  | hello (clientId : String) (room : Option String)
  | snapshot (m : SnapshotMsg)
  | plantEvent (m : PlantMsg)
  | pong
  | other
deriving DecidableEq

/-- Inbound message envelope: protocol version plus body. -/
structure InMsg where
  v : Nat
  body : ClientMsg
deriving DecidableEq

/-- handleMessage: version gate, then dispatch on the message type. -/
def handleMessage (s : ServerState) (ws : Nat) (msg : InMsg)
    (now : Nat) : ServerState × List Effect :=
  if msg.v ≠ 1 then
    (s, [Effect.sendTo ws
      (OutMsg.errorMsg "Unsupported message version" now)])
  else
    match msg.body with
    | ClientMsg.hello cid room => handleHello s ws cid room now
    | ClientMsg.snapshot m => handleSnapshot s ws m now
    | ClientMsg.plantEvent m => handlePlantEvent s ws m now
    | ClientMsg.pong => handlePong s ws now
    | ClientMsg.other => (s, [])

/-- An externally triggered relay event: a parsed inbound message or a
socket close. -/
inductive Event where
  | msg (ws : Nat) (m : InMsg) (now : Nat)
  | disconnect (ws : Nat) (now : Nat)
deriving DecidableEq

/-- One event-loop step of the relay. -/
def step (s : ServerState) (e : Event) : ServerState × List Effect :=
  match e with
  | Event.msg ws m now => handleMessage s ws m now
  | Event.disconnect ws now => handleDisconnect s ws now

/-- Run the relay over a list of events, starting from a given state. -/
def run (s : ServerState) : List Event → ServerState
  | [] => s
  | e :: es => run (step s e).1 es

/-!
Client sync coordinator (MultiplayerSystem.js)

ECS entities are modelled by the component flags the multiplayer system
reads and writes; the handlers are modelled by their effect on the
remote-player map and on the set of entities they create.  The
newlyPlanted query of `execute` carries the component filter
[PlantGrowingComponent, Object3DComponent, Not(Networked)], and ecsy
evaluates it eagerly: every addComponent call re-checks membership, an
entity that starts to match fires ENTITY_ADDED and is pushed onto the
reactive added list the system accumulates, and an entity that stops
matching fires only ENTITY_REMOVED, which the system does not listen
to, so nothing is ever retracted from the added list (it is cleared
only after execute).  The broadcast loop of execute iterates that added
list without re-checking the filter.
-/

/-- Component flags of an ECS entity that the multiplayer system
queries. -/
structure EcsEntity where
  hasObject3D : Bool
  hasPlantGrowing : Bool
  hasNetworked : Bool
  hasNetworkedPlayer : Bool
deriving DecidableEq

/-- Entity built by handleRemotePlantEvent: Object3DComponent,
PlantGrowingComponent and the Networked tag. -/
def remotePlantEntity : EcsEntity :=
  { hasObject3D := true
    hasPlantGrowing := true
    hasNetworked := true
    hasNetworkedPlayer := false }

/-- Entity built by createRemotePlayer: only
NetworkedPlayerComponent. -/
def remotePlayerEntity : EcsEntity :=
  { hasObject3D := false
    hasPlantGrowing := false
    hasNetworked := false
    hasNetworkedPlayer := true }

/-- The newlyPlanted query filter of MultiplayerSystem.queries:
[PlantGrowingComponent, Object3DComponent, Not(Networked)]. -/
def newlyPlantedMatch (e : EcsEntity) : Bool :=
  e.hasPlantGrowing && e.hasObject3D && !e.hasNetworked

/-- The individual components handleRemotePlantEvent and
createRemotePlayer attach, one addComponent call each. -/
inductive EcsComponent where
  | object3D
  | plantGrowing
  | networked
  | networkedPlayer
deriving DecidableEq

/-- A single addComponent call on an entity. -/
def addComponent (e : EcsEntity) : EcsComponent → EcsEntity
  | EcsComponent.object3D => { e with hasObject3D := true }
  | EcsComponent.plantGrowing => { e with hasPlantGrowing := true }
  | EcsComponent.networked => { e with hasNetworked := true }
  | EcsComponent.networkedPlayer => { e with hasNetworkedPlayer := true }

/-- world.createEntity(): an entity with no components. -/
def freshEntity : EcsEntity :=
  { hasObject3D := false
    hasPlantGrowing := false
    hasNetworked := false
    hasNetworkedPlayer := false }

/-- One addComponent call as observed by the reactive newlyPlanted
query: the pair carries the component flags of the entity and whether
the entity sits in the accumulated added list of the query.  ecsy
re-evaluates the query on every addComponent; an entity that matches
after the call is pushed onto the added list (ENTITY_ADDED), and an
entity that stops matching is never removed from it, because the
system only listens for added events. -/
def addComponentStep (st : EcsEntity × Bool) (c : EcsComponent) :
    EcsEntity × Bool :=
  let e1 := addComponent st.1 c
  (e1, st.2 || newlyPlantedMatch e1)

/-- The entity built by handleRemotePlantEvent, together with its
membership in the accumulated newlyPlanted added list, after the three
addComponent calls in source order: Object3DComponent,
PlantGrowingComponent, Networked.  The broadcast loop of the next
execute sends an event:plant for every entity whose membership flag is
true. -/
def remotePlantCreation : EcsEntity × Bool :=
  [EcsComponent.object3D, EcsComponent.plantGrowing,
    EcsComponent.networked].foldl addComponentStep (freshEntity, false)

/-- The multiplayer-system state the message handlers touch: the local
clientId and the remote-player map. -/
structure MPState where
  clientId : String
  remotePlayers : List (String × EcsEntity)
deriving DecidableEq

/-- createRemotePlayer: build the avatar entity and register it under
the given clientId.  Returns the state and the created entity. -/
def createRemotePlayer (st : MPState) (cid : String) :
    MPState × EcsEntity :=
  ({ st with remotePlayers :=
      insertA st.remotePlayers cid remotePlayerEntity },
   remotePlayerEntity)

/-- handlePlayerJoin: ignore our own clientId; create the remote player
when unknown.  Returns the state and the entities created. -/
def handlePlayerJoin (st : MPState) (cid : String) :
    MPState × List EcsEntity :=
  if cid = st.clientId then (st, [])
  else if (lookupA st.remotePlayers cid).isSome then (st, [])
  else
    let r := createRemotePlayer st cid
    (r.1, [r.2])

/-- handlePlayerLeave: ignore our own clientId; drop the remote
player. -/
def handlePlayerLeave (st : MPState) (cid : String) :
    MPState × List EcsEntity :=
  if cid = st.clientId then (st, [])
  else ({ st with remotePlayers := removeA st.remotePlayers cid }, [])

/-- handleSnapshot (client side): ignore our own clientId; create the
remote player when unknown, then update its interpolation targets
(target poses are not modelled; the entity and map key are). -/
def handleSnapshotClient (st : MPState) (cid : String) :
    MPState × List EcsEntity :=
  if cid = st.clientId then (st, [])
  else
    match lookupA st.remotePlayers cid with
    | some _ => (st, [])
    | none =>
        let r := createRemotePlayer st cid
        (r.1, [r.2])

/-- handleRemotePlantEvent: ignore our own clientId; otherwise create a
world object carrying Object3DComponent, PlantGrowingComponent and the
Networked tag. -/
def handleRemotePlantEvent (st : MPState) (cid : String) :
    MPState × List EcsEntity :=
  if cid = st.clientId then (st, [])
  else (st, [remotePlantEntity])

/-- Inbound messages as dispatched by the handleMessage of the client. -/
inductive NetMsg where
  | helloAck
  | join (cid : String)
  | leave (cid : String)
  | snapshotIn (cid : String)
  | plantIn (cid : String)
  | other
deriving DecidableEq

/-- handleMessage of MultiplayerSystem: dispatch on the message type
(hello_ack and unknown types do nothing). -/
def clientHandleMessage (st : MPState) (m : NetMsg) :
    MPState × List EcsEntity :=
  match m with
  | NetMsg.helloAck => (st, [])
  | NetMsg.join cid => handlePlayerJoin st cid
  | NetMsg.leave cid => handlePlayerLeave st cid
  | NetMsg.snapshotIn cid => handleSnapshotClient st cid
  | NetMsg.plantIn cid => handleRemotePlantEvent st cid
  | NetMsg.other => (st, [])

/-!
Definitions used to state the claims
-/

/-- The clientId carried by an inbound client-side message, when the
message type carries one. -/
def msgClientId : NetMsg → Option String
  | NetMsg.join cid => some cid
  | NetMsg.leave cid => some cid
  | NetMsg.snapshotIn cid => some cid
  | NetMsg.plantIn cid => some cid
  | NetMsg.helloAck => none
  | NetMsg.other => none

/-- A snapshot payload sanitizeSnapshot accepts: head, lh and rh all
present. -/
def snapshotWellFormed (m : SnapshotMsg) : Bool :=
  m.head.isSome && m.lh.isSome && m.rh.isSome

/-- Feed one session a sequence of snapshots of the same payload at the
given arrival times; count the events on which the relay broadcast
anything. -/
def runSnaps (s : ServerState) (ws : Nat) (m : SnapshotMsg) :
    List Nat → ServerState × Nat
  | [] => (s, 0)
  | t :: ts =>
      let r := handleSnapshot s ws m t
      let rest := runSnaps r.1 ws m ts
      (rest.1, (if r.2 = [] then 0 else 1) + rest.2)

/-- Arrival times each at least 40ms after the previous one (measured
the way the handler measures: truncated subtraction from the last
rate-stamp, which starts out as the first argument). -/
def spacedFrom : Option Nat → List Nat → Bool
  | _, [] => true
  | none, t :: ts => spacedFrom (some t) ts
  | some last, t :: ts => (40 ≤ t - last) && spacedFrom (some t) ts

/-!
Helper lemmas on the map and set embeddings
-/

/-- A clamped-and-rounded component stays within the clamp bounds. -/
lemma clamp_round3_bounds (lo hi x : ℚ) (h : lo ≤ hi) :
    lo ≤ max lo (min hi (round3 x)) ∧ max lo (min hi (round3 x)) ≤ hi :=
  ⟨le_max_left _ _, max_le h (min_le_left _ _)⟩

/-- A clamped-and-rounded component is an integer multiple of 1/1000,
provided both clamp bounds are. -/
lemma clamp_round3_multiple (lo hi x : ℚ) (a b : ℤ)
    (hlo : lo = (a : ℚ) / 1000) (hhi : hi = (b : ℚ) / 1000) :
    ∃ k : ℤ, max lo (min hi (round3 x)) = (k : ℚ) / 1000 := by
  rcases max_choice lo (min hi (round3 x)) with hmax | hmax
  · exact ⟨a, by rw [hmax, hlo]⟩
  · rcases min_choice hi (round3 x) with hmin | hmin
    · exact ⟨b, by rw [hmax, hmin, hhi]⟩
    · exact ⟨jsRound (x * 1000), by rw [hmax, hmin, round3]⟩

lemma lookupA_insertA {α β : Type} [DecidableEq α]
    (l : List (α × β)) (k key : α) (v : β) :
    lookupA (insertA l k v) key =
      if key = k then some v else lookupA l key := by
  induction l with
  | nil =>
      by_cases h : key = k
      · subst h; simp [insertA, lookupA]
      · simp only [insertA, lookupA]
        rw [if_neg (fun hh : k = key => h hh.symm), if_neg h]
  | cons hd tl ih =>
      obtain ⟨k0, v0⟩ := hd
      by_cases h0 : k0 = k
      · subst h0
        by_cases hk : key = k0
        · subst hk; simp [insertA, lookupA]
        · simp only [insertA, if_pos rfl, lookupA]
          rw [if_neg (fun hh : k0 = key => hk hh.symm), if_neg hk,
            if_neg (fun hh : k0 = key => hk hh.symm)]
      · by_cases hk0 : k0 = key
        · subst hk0
          simp [insertA, if_neg h0, lookupA, h0]
        · simp only [insertA, if_neg h0, lookupA, if_neg hk0]
          exact ih

lemma lookupA_insertA_self {α β : Type} [DecidableEq α]
    (l : List (α × β)) (k : α) (v : β) :
    lookupA (insertA l k v) k = some v := by
  simp [lookupA_insertA]

lemma lookupA_insertA_ne {α β : Type} [DecidableEq α]
    (l : List (α × β)) (k key : α) (v : β) (h : key ≠ k) :
    lookupA (insertA l k v) key = lookupA l key := by
  simp [lookupA_insertA, h]

lemma lookupA_eq_none_of_keys {α β : Type} [DecidableEq α]
    (l : List (α × β)) (key : α) (h : key ∉ l.map Prod.fst) :
    lookupA l key = none := by
  induction l with
  | nil => rfl
  | cons hd tl ih =>
      obtain ⟨k0, v0⟩ := hd
      simp only [List.map_cons, List.mem_cons] at h
      push_neg at h
      simp only [lookupA, if_neg (fun hh : k0 = key => h.1 hh.symm)]
      exact ih h.2

lemma lookupA_removeA_none {α β : Type} [DecidableEq α]
    (l : List (α × β)) (k key : α) (h : lookupA l key = none) :
    lookupA (removeA l k) key = none := by
  induction l with
  | nil => simpa [removeA] using h
  | cons hd tl ih =>
      obtain ⟨k0, v0⟩ := hd
      simp only [lookupA] at h
      by_cases hk : k0 = key
      · rw [if_pos hk] at h; exact absurd h (by simp)
      · rw [if_neg hk] at h
        by_cases h0 : k0 = k
        · subst h0
          simp only [removeA, if_pos rfl]
          exact h
        · simp only [removeA, if_neg h0, lookupA, if_neg hk]
          exact ih h

lemma lookupA_removeA_self {α β : Type} [DecidableEq α]
    (l : List (α × β)) (k : α) (h : (l.map Prod.fst).Nodup) :
    lookupA (removeA l k) k = none := by
  induction l with
  | nil => rfl
  | cons hd tl ih =>
      obtain ⟨k0, v0⟩ := hd
      simp only [List.map_cons, List.nodup_cons] at h
      by_cases h0 : k0 = k
      · subst h0
        simp only [removeA, if_pos rfl]
        exact lookupA_eq_none_of_keys tl k0 h.1
      · simp only [removeA, if_neg h0, lookupA, if_neg h0]
        exact ih h.2

lemma setDelete_nodup (l : List Nat) (x : Nat) (h : l.Nodup) :
    (setDelete l x).Nodup := List.Nodup.filter _ h

lemma mem_setDelete (l : List Nat) (x y : Nat) :
    y ∈ setDelete l x ↔ y ∈ l ∧ y ≠ x := by
  simp [setDelete]

lemma setAdd_nodup (l : List Nat) (x : Nat) (h : l.Nodup) :
    (setAdd l x).Nodup := by
  unfold setAdd
  by_cases hx : x ∈ l
  · simpa [if_pos hx] using h
  · rw [if_neg hx]
    refine List.Nodup.append h (List.nodup_singleton x) ?_
    intro a ha hax
    simp only [List.mem_singleton] at hax
    subst hax
    exact hx ha

lemma mem_setAdd (l : List Nat) (x y : Nat) :
    y ∈ setAdd l x ↔ y ∈ l ∨ y = x := by
  unfold setAdd
  by_cases hx : x ∈ l
  · rw [if_pos hx]
    constructor
    · exact Or.inl
    · rintro (h | rfl)
      · exact h
      · exact hx
  · rw [if_neg hx]
    simp

/-!
Helper lemmas on broadcasting and server state
-/

/-- Room well-formedness: member lists are duplicate-free (they embed
JavaScript Sets).  Holds in every reachable state. -/
def roomsWF (s : ServerState) : Prop :=
  ∀ r ms, lookupA s.rooms r = some ms → ms.Nodup

lemma mem_broadcastToRoom (rooms : List (String × List Nat))
    (r : String) (m : OutMsg) (ex : Option Nat) (e : Effect) :
    e ∈ broadcastToRoom rooms r m ex ↔
      ∃ c, c ∈ (lookupA rooms r).getD [] ∧ some c ≠ ex ∧
        e = Effect.sendTo c m := by
  unfold broadcastToRoom
  cases h : lookupA rooms r with
  | none => simp [h]
  | some ms =>
      simp only [h, Option.getD_some, List.mem_map, List.mem_filter,
        decide_eq_true_eq]
      constructor
      · rintro ⟨c, ⟨hc, hne⟩, rfl⟩
        exact ⟨c, hc, hne, rfl⟩
      · rintro ⟨c, hc, hne, rfl⟩
        exact ⟨c, ⟨hc, hne⟩, rfl⟩

lemma sendTo_excluded_not_mem_broadcast (rooms : List (String × List Nat))
    (r : String) (m msg : OutMsg) (ws : Nat) :
    Effect.sendTo ws msg ∉ broadcastToRoom rooms r m (some ws) := by
  intro h
  rw [mem_broadcastToRoom] at h
  obtain ⟨c, _, hne, he⟩ := h
  cases he
  exact hne rfl

lemma terminate_not_mem_broadcast (rooms : List (String × List Nat))
    (r : String) (m : OutMsg) (ex : Option Nat) (t : Nat) :
    Effect.terminate t ∉ broadcastToRoom rooms r m ex := by
  intro h
  rw [mem_broadcastToRoom] at h
  obtain ⟨c, _, _, he⟩ := h
  exact Effect.noConfusion he

lemma count_broadcastToRoom (rooms : List (String × List Nat))
    (r : String) (m : OutMsg) (ws c : Nat) (ms : List Nat)
    (h : lookupA rooms r = some ms) (hnd : ms.Nodup) (hc : c ∈ ms)
    (hne : c ≠ ws) :
    List.count (Effect.sendTo c m)
      (broadcastToRoom rooms r m (some ws)) = 1 := by
  unfold broadcastToRoom
  rw [h]
  have hinj : Function.Injective (fun c => Effect.sendTo c m) := by
    intro a b hab
    simpa using hab
  rw [List.count_map_of_injective _ _ hinj]
  refine List.count_eq_one_of_mem (List.Nodup.filter _ hnd) ?_
  rw [List.mem_filter]
  exact ⟨hc, by simpa using fun hh => hne (Option.some.inj hh)⟩

lemma flushLoop_no_failure (q : List String) : flushLoop q [] = (q, []) := by
  induction q with
  | nil => rfl
  | cons m rest ih => simp [flushLoop, ih]

lemma flushLoop_append (q : List String) (oks : List Bool) :
    (flushLoop q oks).1 ++ (flushLoop q oks).2 = q := by
  induction q generalizing oks with
  | nil => rfl
  | cons m rest ih =>
      by_cases h : oks.headD true
      · rw [List.headD_eq_head?] at h
        simp [flushLoop, h, ih]
      · rw [List.headD_eq_head?] at h
        simp [flushLoop, h]

lemma iterSched_succ (t : Transport) (k : Nat) :
    iterSched t (k + 1) = (scheduleReconnect (iterSched t k)).1 := by
  induction k generalizing t with
  | zero => rfl
  | succ k ih =>
      have h0 : iterSched t (k + 2) =
          iterSched (scheduleReconnect t).1 (k + 1) := rfl
      rw [h0, ih]
      rfl

lemma handleSnapshot_drop (s : ServerState) (ws : Nat) (m : SnapshotMsg)
    (now : Nat) (client : ClientInfo) (last : Nat)
    (hcl : lookupA s.clients ws = some client)
    (hlast : client.lastSnapshot = some last) (hlt : now - last < 40) :
    handleSnapshot s ws m now = (s, []) := by
  simp [handleSnapshot, hcl, rateLimited, hlast, hlt]

lemma handleSnapshot_accept_state (s : ServerState) (ws : Nat)
    (m : SnapshotMsg) (now : Nat) (client : ClientInfo)
    (hcl : lookupA s.clients ws = some client)
    (hrate : rateLimited client.lastSnapshot now = false) :
    (handleSnapshot s ws m now).1.clients =
      insertA s.clients ws { client with lastSnapshot := some now } ∧
    (handleSnapshot s ws m now).1.rooms = s.rooms := by
  simp only [handleSnapshot, hcl, hrate, Bool.false_eq_true, if_false]
  cases hsan : sanitizeSnapshot m now <;> simp [hsan]

lemma handleSnapshot_accept_invalid (s : ServerState) (ws : Nat)
    (m : SnapshotMsg) (now : Nat) (client : ClientInfo)
    (hcl : lookupA s.clients ws = some client)
    (hrate : rateLimited client.lastSnapshot now = false)
    (hsan : sanitizeSnapshot m now = none) :
    (handleSnapshot s ws m now).2 = [] := by
  simp [handleSnapshot, hcl, hrate, hsan]

lemma handleSnapshot_accept_valid (s : ServerState) (ws : Nat)
    (m : SnapshotMsg) (now : Nat) (client : ClientInfo)
    (san : SanSnapshot)
    (hcl : lookupA s.clients ws = some client)
    (hrate : rateLimited client.lastSnapshot now = false)
    (hsan : sanitizeSnapshot m now = some san) :
    (handleSnapshot s ws m now).2 =
      broadcastToRoom s.rooms client.room
        (OutMsg.snapshotOut client.clientId san) (some ws) := by
  simp [handleSnapshot, hcl, hrate, hsan]

lemma handleSnapshot_rooms (s : ServerState) (ws : Nat) (m : SnapshotMsg)
    (now : Nat) : (handleSnapshot s ws m now).1.rooms = s.rooms := by
  unfold handleSnapshot
  cases hcl : lookupA s.clients ws with
  | none => rfl
  | some client =>
      by_cases hrate : rateLimited client.lastSnapshot now
      · simp [hrate]
      · simp only [hrate, Bool.false_eq_true, if_false]
        cases hsan : sanitizeSnapshot m now <;> simp [hsan]

lemma sanitizeSnapshot_isSome (m : SnapshotMsg) (now : Nat)
    (h : snapshotWellFormed m = true) :
    ∃ san, sanitizeSnapshot m now = some san := by
  unfold snapshotWellFormed at h
  simp only [Bool.and_eq_true, Option.isSome_iff_exists] at h
  obtain ⟨⟨⟨hh, hhv⟩, ⟨hl, hlv⟩⟩, ⟨hr, hrv⟩⟩ := h
  unfold sanitizeSnapshot
  rw [hhv, hlv, hrv]
  exact ⟨_, rfl⟩

lemma terminate_not_mem_handleHello (s : ServerState) (ws : Nat)
    (cid : String) (room : Option String) (now t : Nat) :
    Effect.terminate t ∉ (handleHello s ws cid room now).2 := by
  unfold handleHello
  by_cases hcid : cid = ""
  · simp [hcid]
  · simp only [hcid, if_false, List.mem_append, List.mem_singleton]
    rintro (h | h)
    · exact terminate_not_mem_broadcast _ _ _ _ _ h
    · exact Effect.noConfusion h

lemma terminate_not_mem_handleSnapshot (s : ServerState) (ws : Nat)
    (m : SnapshotMsg) (now t : Nat) :
    Effect.terminate t ∉ (handleSnapshot s ws m now).2 := by
  unfold handleSnapshot
  cases hcl : lookupA s.clients ws with
  | none => simp
  | some client =>
      by_cases hrate : rateLimited client.lastSnapshot now
      · simp [hrate]
      · simp only [hrate, Bool.false_eq_true, if_false]
        cases hsan : sanitizeSnapshot m now with
        | none => simp
        | some san =>
            simp only []
            exact terminate_not_mem_broadcast _ _ _ _ _

lemma terminate_not_mem_handlePlantEvent (s : ServerState) (ws : Nat)
    (m : PlantMsg) (now t : Nat) :
    Effect.terminate t ∉ (handlePlantEvent s ws m now).2 := by
  unfold handlePlantEvent
  cases hcl : lookupA s.clients ws with
  | none => simp
  | some client =>
      cases hp : m.pos with
      | none => simp
      | some pos =>
          cases hq : m.quat with
          | none => simp
          | some quat =>
              by_cases hpt : m.plantType = ""
              · simp [hpt]
              · simp only [hpt, if_false]
                exact terminate_not_mem_broadcast _ _ _ _ _

lemma terminate_not_mem_handleDisconnect (s : ServerState) (ws : Nat)
    (now t : Nat) :
    Effect.terminate t ∉ (handleDisconnect s ws now).2 := by
  unfold handleDisconnect
  cases hcl : lookupA s.clients ws with
  | none => simp
  | some client =>
      cases hr : lookupA s.rooms client.room with
      | none => simp [hr]
      | some members =>
          by_cases hemp : setDelete members ws = []
          · simp [hr, hemp]
          · simp only [hr, hemp, if_false]
            exact terminate_not_mem_broadcast _ _ _ _ _

lemma terminate_not_mem_handleMessage (s : ServerState) (ws : Nat)
    (m : InMsg) (now t : Nat) :
    Effect.terminate t ∉ (handleMessage s ws m now).2 := by
  unfold handleMessage
  by_cases hv : m.v ≠ 1
  · simp [hv]
  · simp only [hv, if_false]
    cases m.body with
    | hello cid room => exact terminate_not_mem_handleHello _ _ _ _ _ _
    | snapshot ms => exact terminate_not_mem_handleSnapshot _ _ _ _ _
    | plantEvent mp => exact terminate_not_mem_handlePlantEvent _ _ _ _ _
    | pong =>
        unfold handlePong
        cases lookupA s.clients ws <;> simp
    | other => simp

lemma cleanupClient_roomsWF (s : ServerState) (ws : Nat)
    (h : roomsWF s) : roomsWF (cleanupClient s ws) := by
  unfold cleanupClient
  cases hcl : lookupA s.clients ws with
  | none => exact h
  | some info =>
      cases hr : lookupA s.rooms info.room with
      | none =>
          simp only [hr]
          exact h
      | some members =>
          simp only [hr]
          intro r2 ms2 hms2
          rw [lookupA_insertA] at hms2
          by_cases h2 : r2 = info.room
          · rw [if_pos h2] at hms2
            cases hms2
            exact setDelete_nodup _ _ (h _ _ hr)
          · rw [if_neg h2] at hms2
            exact h _ _ hms2

lemma handleSnapshot_accept_mem (s : ServerState) (ws : Nat)
    (m : SnapshotMsg) (now : Nat) (client : ClientInfo)
    (san : SanSnapshot) (peer : Nat)
    (hcl : lookupA s.clients ws = some client)
    (hrate : rateLimited client.lastSnapshot now = false)
    (hsan : sanitizeSnapshot m now = some san)
    (hpeer : peer ∈ (lookupA s.rooms client.room).getD [])
    (hne : peer ≠ ws) :
    Effect.sendTo peer (OutMsg.snapshotOut client.clientId san) ∈
      (handleSnapshot s ws m now).2 := by
  rw [handleSnapshot_accept_valid s ws m now client san hcl hrate hsan]
  rw [mem_broadcastToRoom]
  exact ⟨peer, hpeer, by simp [hne], rfl⟩

lemma runSnaps_drop_all (s : ServerState) (ws : Nat) (m : SnapshotMsg)
    (client : ClientInfo) (t0 : Nat) (rest : List Nat)
    (hcl : lookupA s.clients ws = some client)
    (hlast : client.lastSnapshot = some t0)
    (hall : ∀ t ∈ rest, t - t0 < 40) :
    runSnaps s ws m rest = (s, 0) := by
  induction rest with
  | nil => rfl
  | cons t ts ih =>
      have hd := handleSnapshot_drop s ws m t client t0 hcl hlast
        (hall t (List.mem_cons_self _ _))
      have ihr := ih (fun t2 ht2 => hall t2 (List.mem_cons_of_mem _ ht2))
      simp [runSnaps, hd, ihr]

lemma runSnaps_spaced (ws : Nat) (m : SnapshotMsg) (peer : Nat)
    (ts : List Nat) :
    ∀ (s : ServerState) (client : ClientInfo),
    lookupA s.clients ws = some client →
    snapshotWellFormed m = true →
    peer ∈ (lookupA s.rooms client.room).getD [] →
    peer ≠ ws →
    spacedFrom client.lastSnapshot ts = true →
    (runSnaps s ws m ts).2 = ts.length := by
  induction ts with
  | nil => intro s client _ _ _ _ _; rfl
  | cons t ts ih =>
      intro s client hcl hwfm hpeer hne hsp
      have hrate : rateLimited client.lastSnapshot t = false := by
        cases hls : client.lastSnapshot with
        | none => rfl
        | some last =>
            rw [hls] at hsp
            simp only [spacedFrom, Bool.and_eq_true,
              decide_eq_true_eq] at hsp
            simp [rateLimited, Nat.not_lt.mpr hsp.1]
      have hsp1 : spacedFrom (some t) ts = true := by
        cases hls : client.lastSnapshot with
        | none =>
            rw [hls] at hsp
            exact hsp
        | some last =>
            rw [hls] at hsp
            simp only [spacedFrom, Bool.and_eq_true,
              decide_eq_true_eq] at hsp
            exact hsp.2
      obtain ⟨san, hsan⟩ := sanitizeSnapshot_isSome m t hwfm
      have hstate := handleSnapshot_accept_state s ws m t client hcl hrate
      have hmem := handleSnapshot_accept_mem s ws m t client san peer
        hcl hrate hsan hpeer hne
      have hne2 : (handleSnapshot s ws m t).2 ≠ [] := by
        intro hempty
        rw [hempty] at hmem
        exact List.not_mem_nil _ hmem
      have hcl1 : lookupA (handleSnapshot s ws m t).1.clients ws =
          some { client with lastSnapshot := some t } := by
        rw [hstate.1]
        exact lookupA_insertA_self _ _ _
      have hpeer1 : peer ∈ (lookupA (handleSnapshot s ws m t).1.rooms
          ({ client with lastSnapshot := some t } : ClientInfo).room).getD
            [] := by
        rw [hstate.2]
        exact hpeer
      have ihr := ih (handleSnapshot s ws m t).1
        { client with lastSnapshot := some t } hcl1 hwfm hpeer1 hne hsp1
      simp [runSnaps, hne2, ihr, Nat.add_comm]

/-!
Claim theorems
-/

/-- C2: for every numeric-shaped input, clampVector3 returns a vector
whose components lie in [-1000, 1000] and are integer multiples of
0.001, and returns the zero vector on non-numeric input; for every
numeric-shaped input, clampQuaternion returns a quaternion whose four
components lie in [-1, 1] and are integer multiples of 0.001, and
returns the identity quaternion on non-numeric input. -/
theorem C2_sanitizer_bounds :
    (∀ v : Vec3,
      (-1000 ≤ (clampVector3 (some v)).x ∧
        (clampVector3 (some v)).x ≤ 1000 ∧
        ∃ k : ℤ, (clampVector3 (some v)).x = (k : ℚ) / 1000) ∧
      (-1000 ≤ (clampVector3 (some v)).y ∧
        (clampVector3 (some v)).y ≤ 1000 ∧
        ∃ k : ℤ, (clampVector3 (some v)).y = (k : ℚ) / 1000) ∧
      (-1000 ≤ (clampVector3 (some v)).z ∧
        (clampVector3 (some v)).z ≤ 1000 ∧
        ∃ k : ℤ, (clampVector3 (some v)).z = (k : ℚ) / 1000)) ∧
    clampVector3 none = ⟨0, 0, 0⟩ ∧
    (∀ q : Quat,
      (-1 ≤ (clampQuaternion (some q)).x ∧
        (clampQuaternion (some q)).x ≤ 1 ∧
        ∃ k : ℤ, (clampQuaternion (some q)).x = (k : ℚ) / 1000) ∧
      (-1 ≤ (clampQuaternion (some q)).y ∧
        (clampQuaternion (some q)).y ≤ 1 ∧
        ∃ k : ℤ, (clampQuaternion (some q)).y = (k : ℚ) / 1000) ∧
      (-1 ≤ (clampQuaternion (some q)).z ∧
        (clampQuaternion (some q)).z ≤ 1 ∧
        ∃ k : ℤ, (clampQuaternion (some q)).z = (k : ℚ) / 1000) ∧
      (-1 ≤ (clampQuaternion (some q)).w ∧
        (clampQuaternion (some q)).w ≤ 1 ∧
        ∃ k : ℤ, (clampQuaternion (some q)).w = (k : ℚ) / 1000)) ∧
    clampQuaternion none = ⟨0, 0, 0, 1⟩ := by
  have hv : ∀ x : ℚ, -1000 ≤ max (-1000) (min 1000 (round3 x)) ∧
      max (-1000) (min 1000 (round3 x)) ≤ 1000 ∧
      ∃ k : ℤ, max (-1000) (min 1000 (round3 x)) = (k : ℚ) / 1000 := by
    intro x
    obtain ⟨h1, h2⟩ := clamp_round3_bounds (-1000) 1000 x (by norm_num)
    exact ⟨h1, h2, clamp_round3_multiple (-1000) 1000 x (-1000000)
      1000000 (by norm_num) (by norm_num)⟩
  have hq : ∀ x : ℚ, -1 ≤ max (-1) (min 1 (round3 x)) ∧
      max (-1) (min 1 (round3 x)) ≤ 1 ∧
      ∃ k : ℤ, max (-1) (min 1 (round3 x)) = (k : ℚ) / 1000 := by
    intro x
    obtain ⟨h1, h2⟩ := clamp_round3_bounds (-1) 1 x (by norm_num)
    exact ⟨h1, h2, clamp_round3_multiple (-1) 1 x (-1000) 1000
      (by norm_num) (by norm_num)⟩
  exact ⟨fun v => ⟨hv v.x, hv v.y, hv v.z⟩, rfl,
    fun q => ⟨hq q.x, hq q.y, hq q.z, hq q.w⟩, rfl⟩

/-- C7: the claim says the world object replicated from a received
event:plant is never in the set of newly created objects that get
broadcast.  Evaluating the creation sequence of handleRemotePlantEvent
under the eager query evaluation of ecsy refutes this: after the
PlantGrowingComponent call the entity matches
[PlantGrowing, Object3D, Not(Networked)] - Networked is only attached
by the third call - so it enters the accumulated newlyPlanted added
list and is never retracted; the broadcast loop of the next execute
therefore re-sends it, even though its final component flags (equal to
remotePlantEntity) do not match the filter.  The Networked tag thus
fails to prevent the echo the claim (and the source comments) intend
it to prevent. -/
theorem C7_replicated_plant_rebroadcast :
    remotePlantCreation.2 = true ∧
    remotePlantCreation.1 = remotePlantEntity ∧
    newlyPlantedMatch remotePlantCreation.1 = false :=
  ⟨rfl, rfl, rfl⟩

/-- C10: the client ignores every join, leave, snapshot and event:plant
whose clientId equals its own (the handler leaves the state unchanged
and creates nothing), and processing any inbound message keeps the
remote-player map free of the local clientId. -/
theorem C10_local_client_ignored :
    (∀ (st : MPState) (m : NetMsg), msgClientId m = some st.clientId →
        clientHandleMessage st m = (st, [])) ∧
    (∀ (st : MPState) (m : NetMsg),
        lookupA st.remotePlayers st.clientId = none →
        lookupA (clientHandleMessage st m).1.remotePlayers st.clientId =
          none) := by
  constructor
  · intro st m h
    cases m with
    | helloAck => simp [msgClientId] at h
    | other => simp [msgClientId] at h
    | join cid =>
        simp only [msgClientId, Option.some.injEq] at h
        simp [clientHandleMessage, handlePlayerJoin, h]
    | leave cid =>
        simp only [msgClientId, Option.some.injEq] at h
        simp [clientHandleMessage, handlePlayerLeave, h]
    | snapshotIn cid =>
        simp only [msgClientId, Option.some.injEq] at h
        simp [clientHandleMessage, handleSnapshotClient, h]
    | plantIn cid =>
        simp only [msgClientId, Option.some.injEq] at h
        simp [clientHandleMessage, handleRemotePlantEvent, h]
  · intro st m h
    cases m with
    | helloAck => exact h
    | other => exact h
    | plantIn cid =>
        simp only [clientHandleMessage, handleRemotePlantEvent]
        by_cases hc : cid = st.clientId
        · rw [if_pos hc]; exact h
        · rw [if_neg hc]; exact h
    | leave cid =>
        simp only [clientHandleMessage, handlePlayerLeave]
        by_cases hc : cid = st.clientId
        · rw [if_pos hc]; exact h
        · rw [if_neg hc]
          exact lookupA_removeA_none _ _ _ h
    | join cid =>
        simp only [clientHandleMessage, handlePlayerJoin]
        by_cases hc : cid = st.clientId
        · rw [if_pos hc]; exact h
        · rw [if_neg hc]
          by_cases hs : (lookupA st.remotePlayers cid).isSome
          · rw [if_pos hs]; exact h
          · rw [if_neg hs]
            simp only [createRemotePlayer]
            rw [lookupA_insertA_ne _ _ _ _ (fun hh => hc hh.symm)]
            exact h
    | snapshotIn cid =>
        simp only [clientHandleMessage, handleSnapshotClient]
        by_cases hc : cid = st.clientId
        · rw [if_pos hc]; exact h
        · rw [if_neg hc]
          cases hm : lookupA st.remotePlayers cid with
          | some e => exact h
          | none =>
              simp only [createRemotePlayer]
              rw [lookupA_insertA_ne _ _ _ _ (fun hh => hc hh.symm)]
              exact h

/-- Witness for C10 at a concrete state and messages naming the local
client. -/
theorem C10_local_client_ignored_witness :
    clientHandleMessage ⟨"me", []⟩ (NetMsg.join "me") = (⟨"me", []⟩, []) ∧
    lookupA (clientHandleMessage ⟨"me", []⟩
      (NetMsg.snapshotIn "me")).1.remotePlayers "me" = none :=
  ⟨C10_local_client_ignored.1 ⟨"me", []⟩ (NetMsg.join "me") rfl,
   C10_local_client_ignored.2 ⟨"me", []⟩ (NetMsg.snapshotIn "me") rfl⟩

/-- C4: sending while the transport is not connected reports queued
(false) and appends the serialized message to the FIFO queue, dropping
the oldest entry when full; the queue length never exceeds the
configured maximum; the flush on open preserves the original FIFO order
and, when no write fails, drains the whole queue. -/
theorem C4_transport_queue :
    (∀ (t : Transport) (m : String) (wsOpen sendOk : Bool),
        t.isConnected = false →
        (Transport.send t m wsOpen sendOk).2.1 = false ∧
        (Transport.send t m wsOpen sendOk).1.messageQueue =
          (if t.maxQueueSize ≤ t.messageQueue.length
            then t.messageQueue.tail else t.messageQueue) ++ [m]) ∧
    (∀ (t : Transport) (m : String),
        1 ≤ t.maxQueueSize → t.messageQueue.length ≤ t.maxQueueSize →
        (queueMessage t m).messageQueue.length ≤ t.maxQueueSize) ∧
    (∀ (q : List String) (oks : List Bool),
        (flushLoop q oks).1 ++ (flushLoop q oks).2 = q) ∧
    (∀ t : Transport,
        (Transport.onOpen t []).2 = t.messageQueue ∧
        (Transport.onOpen t []).1.messageQueue = []) := by
  refine ⟨?_, ?_, flushLoop_append, ?_⟩
  · intro t m wsOpen sendOk h
    constructor
    · simp [Transport.send, h]
    · simp [Transport.send, h, queueMessage]
  · intro t m h1 h2
    simp only [queueMessage, List.length_append, List.length_singleton]
    by_cases hf : t.maxQueueSize ≤ t.messageQueue.length
    · rw [if_pos hf]
      have ht : t.messageQueue.tail.length = t.messageQueue.length - 1 :=
        List.length_tail _
      omega
    · rw [if_neg hf]
      omega
  · intro t
    simp [Transport.onOpen, flushLoop_no_failure]

/-- Witness for C4: a disconnected transport queues a send and reports
false; the bound and the flush hold on the resulting queue. -/
theorem C4_transport_queue_witness :
    (Transport.send Transport.mk0 "a" true true).2.1 = false ∧
    (queueMessage Transport.mk0 "a").messageQueue.length ≤
      Transport.mk0.maxQueueSize ∧
    (Transport.onOpen (queueMessage Transport.mk0 "a") []).2 = ["a"] :=
  ⟨(C4_transport_queue.1 Transport.mk0 "a" true true rfl).1,
   C4_transport_queue.2.1 Transport.mk0 "a" (by decide) (by decide),
   (C4_transport_queue.2.2.2 (queueMessage Transport.mk0 "a")).1⟩

/-- C5: starting from the constructor state, the k-th scheduled
reconnect delay is min(1000 * 2^k, 30000) for k = 0..9; the 10th round
schedules nothing and emits the terminal maxReconnectAttemptsReached
event. -/
theorem C5_reconnect_backoff :
    (∀ k : Nat, k < 10 →
        nthDelay Transport.mk0 k =
          (some (min (1000 * 2 ^ k) 30000), false)) ∧
    nthDelay Transport.mk0 10 = (none, true) := by
  exact ⟨by decide, by decide⟩

/-- Witness for C5 at attempt number 5, where the backoff caps at
30000ms. -/
theorem C5_reconnect_backoff_witness :
    nthDelay Transport.mk0 5 = (some 30000, false) :=
  C5_reconnect_backoff.1 5 (by decide)

/-- C8 counterexample: a pong arriving on a connection with no session
is ignored without any reply - in particular no error message is sent -
contradicting the claim that every session-requiring message type
(which includes pong) is answered with an error when no session
exists. -/
theorem C8_counterexample :
    (step initState (Event.msg 0 ⟨1, ClientMsg.pong⟩ 5)).2 = [] ∧
    ¬ ∃ e ts, Effect.sendTo 0 (OutMsg.errorMsg e ts) ∈
        (step initState (Event.msg 0 ⟨1, ClientMsg.pong⟩ 5)).2 := by
  refine ⟨rfl, ?_⟩
  rintro ⟨e, ts, h⟩
  rw [show (step initState (Event.msg 0 ⟨1, ClientMsg.pong⟩ 5)).2 = []
    from rfl] at h
  exact absurd h (List.not_mem_nil _)

/-- C8 amended: a snapshot or event:plant arriving on a connection with
no session is answered with a "Not authenticated" error to the sender,
and no message handler ever terminates a connection; a pong arriving on
a connection with no session is silently ignored (no reply, no state
change). -/
theorem C8_no_session_errors :
    (∀ (s : ServerState) (ws : Nat) (m : SnapshotMsg) (now : Nat),
        lookupA s.clients ws = none →
        handleSnapshot s ws m now =
          (s, [Effect.sendTo ws
            (OutMsg.errorMsg "Not authenticated" now)])) ∧
    (∀ (s : ServerState) (ws : Nat) (m : PlantMsg) (now : Nat),
        lookupA s.clients ws = none →
        handlePlantEvent s ws m now =
          (s, [Effect.sendTo ws
            (OutMsg.errorMsg "Not authenticated" now)])) ∧
    (∀ (s : ServerState) (ws : Nat) (now : Nat),
        lookupA s.clients ws = none →
        handlePong s ws now = (s, [])) ∧
    (∀ (s : ServerState) (ws : Nat) (m : InMsg) (now t : Nat),
        Effect.terminate t ∉ (handleMessage s ws m now).2) := by
  refine ⟨?_, ?_, ?_, fun s ws m now t =>
    terminate_not_mem_handleMessage s ws m now t⟩
  · intro s ws m now h
    simp [handleSnapshot, h]
  · intro s ws m now h
    simp [handlePlantEvent, h]
  · intro s ws now h
    simp [handlePong, h]

/-- Witness for C8 amended at the empty server state. -/
theorem C8_no_session_errors_witness :
    handleSnapshot initState 0 ⟨none, none, none, none⟩ 5 =
      (initState, [Effect.sendTo 0
        (OutMsg.errorMsg "Not authenticated" 5)]) ∧
    handlePong initState 0 5 = (initState, []) :=
  ⟨C8_no_session_errors.1 initState 0 ⟨none, none, none, none⟩ 5 rfl,
   C8_no_session_errors.2.2.1 initState 0 5 rfl⟩

/-- C9: an authenticated snapshot that passes the rate check but fails
validation (missing head, lh or rh) produces no broadcast and no error,
yet still updates the rate-stamp of the session, so any snapshot - well
formed or not - arriving within the next 40ms is dropped. -/
theorem C9_invalid_snapshot_consumes_window (s : ServerState) (ws : Nat)
    (client : ClientInfo) (m1 m2 : SnapshotMsg) (now1 now2 : Nat)
    (hcl : lookupA s.clients ws = some client)
    (hrate : rateLimited client.lastSnapshot now1 = false)
    (hsan : sanitizeSnapshot m1 now1 = none)
    (hnext : now2 - now1 < 40) :
    (handleSnapshot s ws m1 now1).2 = [] ∧
    lookupA (handleSnapshot s ws m1 now1).1.clients ws =
      some { client with lastSnapshot := some now1 } ∧
    handleSnapshot (handleSnapshot s ws m1 now1).1 ws m2 now2 =
      ((handleSnapshot s ws m1 now1).1, []) := by
  have hstate := handleSnapshot_accept_state s ws m1 now1 client hcl hrate
  have hlook : lookupA (handleSnapshot s ws m1 now1).1.clients ws =
      some { client with lastSnapshot := some now1 } := by
    rw [hstate.1]
    exact lookupA_insertA_self _ _ _
  exact ⟨handleSnapshot_accept_invalid s ws m1 now1 client hcl hrate hsan,
    hlook,
    handleSnapshot_drop _ ws m2 now2 _ now1 hlook rfl hnext⟩

/-- Witness for C9: a session in a two-member room sends an invalid
snapshot at t=100; a fully valid snapshot at t=120 is dropped as
well. -/
theorem C9_invalid_snapshot_consumes_window_witness :
    (handleSnapshot ⟨[("r", [0, 1])], [(0, ⟨"a", "r", 0, none⟩)]⟩ 0
      ⟨none, none, none, none⟩ 100).2 = [] ∧
    lookupA (handleSnapshot ⟨[("r", [0, 1])], [(0, ⟨"a", "r", 0, none⟩)]⟩
      0 ⟨none, none, none, none⟩ 100).1.clients 0 =
      some ⟨"a", "r", 0, some 100⟩ ∧
    handleSnapshot (handleSnapshot ⟨[("r", [0, 1])],
      [(0, ⟨"a", "r", 0, none⟩)]⟩ 0 ⟨none, none, none, none⟩ 100).1 0
      ⟨some 5, some ⟨some ⟨1, 2, 3⟩, some ⟨0, 0, 0, 1⟩⟩,
        some ⟨some ⟨0, 0, 0⟩, some ⟨0, 0, 0, 1⟩⟩,
        some ⟨some ⟨0, 0, 0⟩, some ⟨0, 0, 0, 1⟩⟩⟩ 120 =
      ((handleSnapshot ⟨[("r", [0, 1])], [(0, ⟨"a", "r", 0, none⟩)]⟩ 0
        ⟨none, none, none, none⟩ 100).1, []) :=
  C9_invalid_snapshot_consumes_window _ 0 ⟨"a", "r", 0, none⟩ _ _ 100 120
    rfl rfl rfl (by decide)

/-- C3 counterexample: after hello{a, room ra} followed by
hello{a, room rb} on the same connection, cleanupClient removes the only
member of "ra" but leaves the room registered with an empty member list,
so a reachable relay state has a room with no member connection. -/
theorem C3_counterexample :
    lookupA (run initState
      [Event.msg 0 ⟨1, ClientMsg.hello "a" (some "ra")⟩ 0,
       Event.msg 0 ⟨1, ClientMsg.hello "a" (some "rb")⟩ 1]).rooms "ra" =
      some [] ∧
    ¬ ∀ r ms, lookupA (run initState
      [Event.msg 0 ⟨1, ClientMsg.hello "a" (some "ra")⟩ 0,
       Event.msg 0 ⟨1, ClientMsg.hello "a" (some "rb")⟩ 1]).rooms r =
        some ms → ms ≠ [] :=
  ⟨rfl, fun h => h "ra" [] rfl rfl⟩

/-- C3 amended: a room is removed from the registry when its last member
leaves by disconnecting; a second hello tears the prior membership down
but may leave an empty room entry behind, and a subsequent hello naming
such a room still behaves exactly like a fresh room creation: the join
broadcast reaches nobody, only the hello_ack is sent, and the
member list of the room becomes exactly the new connection. -/
theorem C3_room_lifecycle :
    (∀ (s : ServerState) (ws : Nat) (client : ClientInfo)
        (ms : List Nat) (now : Nat),
        (s.rooms.map Prod.fst).Nodup →
        lookupA s.clients ws = some client →
        lookupA s.rooms client.room = some ms →
        setDelete ms ws = [] →
        lookupA (handleDisconnect s ws now).1.rooms client.room =
          none) ∧
    (∀ (s : ServerState) (ws : Nat) (cid r : String) (now : Nat),
        cid ≠ "" → lookupA s.clients ws = none →
        (lookupA s.rooms r = none ∨ lookupA s.rooms r = some []) →
        (handleHello s ws cid (some r) now).2 =
          [Effect.sendTo ws (OutMsg.helloAck cid r)] ∧
        lookupA (handleHello s ws cid (some r) now).1.rooms r =
          some [ws]) := by
  constructor
  · intro s ws client ms now hnd hcl hms hemp
    unfold handleDisconnect
    simp only [hcl, hms, hemp, if_pos]
    exact lookupA_removeA_self _ _ hnd
  · intro s ws cid r now hcid hws hroom
    have hclean : cleanupClient s ws = s := by
      unfold cleanupClient
      rw [hws]
    have hmem : (lookupA s.rooms r).getD [] = [] := by
      rcases hroom with h | h <;> simp [h]
    unfold handleHello
    simp only [Option.getD_some, if_neg hcid, hclean, hmem]
    have hadd : setAdd [] ws = [ws] := by simp [setAdd]
    rw [hadd]
    constructor
    · unfold broadcastToRoom
      rw [lookupA_insertA_self]
      simp
    · exact lookupA_insertA_self _ _ _

/-- Witness for C3 amended: disconnecting the sole member of room "r"
removes the room; a hello into a leftover empty room "ra" acts as a
fresh creation. -/
theorem C3_room_lifecycle_witness :
    lookupA (handleDisconnect ⟨[("r", [0])], [(0, ⟨"a", "r", 0, none⟩)]⟩
      0 9).1.rooms "r" = none ∧
    (handleHello ⟨[("ra", [])], []⟩ 0 "b" (some "ra") 9).2 =
      [Effect.sendTo 0 (OutMsg.helloAck "b" "ra")] ∧
    lookupA (handleHello ⟨[("ra", [])], []⟩ 0 "b"
      (some "ra") 9).1.rooms "ra" = some [0] := by
  refine ⟨C3_room_lifecycle.1 ⟨[("r", [0])], [(0, ⟨"a", "r", 0, none⟩)]⟩
    0 ⟨"a", "r", 0, none⟩ [0] 9 (by decide) rfl rfl rfl, ?_, ?_⟩
  · exact (C3_room_lifecycle.2 ⟨[("ra", [])], []⟩ 0 "b" "ra" 9
      (by decide) rfl (Or.inr rfl)).1
  · exact (C3_room_lifecycle.2 ⟨[("ra", [])], []⟩ 0 "b" "ra" 9
      (by decide) rfl (Or.inr rfl)).2

/-- C6: on a valid hello the join broadcast reaches every other member
of the (well-formed) room exactly once and never the joining sender,
while the hello_ack goes to the sender and only the sender; the other
room broadcasts likewise exclude their trigger: a snapshot sender only
ever gets an error back, a plant sender only ever gets an error back,
and a disconnecting connection is sent nothing at all. -/
theorem C6_broadcasts_exclude_sender :
    (∀ (s : ServerState) (ws : Nat) (cid r : String) (now : Nat),
        cid ≠ "" → roomsWF s →
        (∀ msg, Effect.sendTo ws msg ∈
            (handleHello s ws cid (some r) now).2 →
          msg = OutMsg.helloAck cid r) ∧
        Effect.sendTo ws (OutMsg.helloAck cid r) ∈
          (handleHello s ws cid (some r) now).2 ∧
        (∀ (c : Nat) (cid2 r2 : String),
          Effect.sendTo c (OutMsg.helloAck cid2 r2) ∈
            (handleHello s ws cid (some r) now).2 → c = ws) ∧
        (∀ c : Nat,
          c ∈ (lookupA (handleHello s ws cid (some r) now).1.rooms
            r).getD [] →
          c ≠ ws →
          List.count (Effect.sendTo c (OutMsg.joinMsg cid now))
            (handleHello s ws cid (some r) now).2 = 1)) ∧
    (∀ (s : ServerState) (ws : Nat) (m : SnapshotMsg) (now : Nat)
        (msg : OutMsg),
        Effect.sendTo ws msg ∈ (handleSnapshot s ws m now).2 →
        msg = OutMsg.errorMsg "Not authenticated" now) ∧
    (∀ (s : ServerState) (ws : Nat) (m : PlantMsg) (now : Nat)
        (msg : OutMsg),
        Effect.sendTo ws msg ∈ (handlePlantEvent s ws m now).2 →
        msg = OutMsg.errorMsg "Not authenticated" now ∨
          msg = OutMsg.errorMsg "Invalid plant event data" now) ∧
    (∀ (s : ServerState) (ws : Nat) (now : Nat) (msg : OutMsg),
        Effect.sendTo ws msg ∉ (handleDisconnect s ws now).2) := by
  refine ⟨?_, ?_, ?_, ?_⟩
  · intro s ws cid r now hcid hwf
    have hout : (handleHello s ws cid (some r) now).2 =
        broadcastToRoom
          (insertA (cleanupClient s ws).rooms r
            (setAdd ((lookupA (cleanupClient s ws).rooms r).getD []) ws))
          r (OutMsg.joinMsg cid now) (some ws) ++
        [Effect.sendTo ws (OutMsg.helloAck cid r)] := by
      simp [handleHello, hcid]
    have hrooms : (handleHello s ws cid (some r) now).1.rooms =
        insertA (cleanupClient s ws).rooms r
          (setAdd ((lookupA (cleanupClient s ws).rooms r).getD [])
            ws) := by
      simp [handleHello, hcid]
    have hndmem :
        ((lookupA (cleanupClient s ws).rooms r).getD []).Nodup := by
      cases hm : lookupA (cleanupClient s ws).rooms r with
      | none => simp
      | some ms =>
          simp only [Option.getD_some]
          exact cleanupClient_roomsWF s ws hwf _ _ hm
    refine ⟨?_, ?_, ?_, ?_⟩
    · intro msg hmem
      rw [hout, List.mem_append] at hmem
      rcases hmem with hmem | hmem
      · exact absurd hmem (sendTo_excluded_not_mem_broadcast _ _ _ _ _)
      · rw [List.mem_singleton] at hmem
        exact (Effect.sendTo.inj hmem).2
    · rw [hout, List.mem_append]
      exact Or.inr (List.mem_singleton.mpr rfl)
    · intro c cid2 r2 hmem
      rw [hout, List.mem_append] at hmem
      rcases hmem with hmem | hmem
      · rw [mem_broadcastToRoom] at hmem
        obtain ⟨c2, _, _, he⟩ := hmem
        exact absurd (Effect.sendTo.inj he).2 (by simp)
      · rw [List.mem_singleton] at hmem
        exact (Effect.sendTo.inj hmem).1
    · intro c hc hcw
      rw [hrooms, lookupA_insertA_self, Option.getD_some] at hc
      rw [hout, List.count_append]
      have h1 : List.count (Effect.sendTo c (OutMsg.joinMsg cid now))
          [Effect.sendTo ws (OutMsg.helloAck cid r)] = 0 := by
        simp [List.count_cons, hcw]
      rw [h1, Nat.add_zero]
      exact count_broadcastToRoom _ _ _ _ _ _
        (lookupA_insertA_self _ _ _) (setAdd_nodup _ _ hndmem) hc hcw
  · intro s ws m now msg hmem
    unfold handleSnapshot at hmem
    cases hcl : lookupA s.clients ws with
    | none =>
        rw [hcl] at hmem
        simp only [List.mem_singleton] at hmem
        exact (Effect.sendTo.inj hmem).2
    | some client =>
        rw [hcl] at hmem
        by_cases hrate : rateLimited client.lastSnapshot now
        · simp [hrate] at hmem
        · simp only [hrate, Bool.false_eq_true, if_false] at hmem
          cases hsan : sanitizeSnapshot m now with
          | none =>
              rw [hsan] at hmem
              simp at hmem
          | some san =>
              rw [hsan] at hmem
              simp only at hmem
              exact absurd hmem
                (sendTo_excluded_not_mem_broadcast _ _ _ _ _)
  · intro s ws m now msg hmem
    unfold handlePlantEvent at hmem
    cases hcl : lookupA s.clients ws with
    | none =>
        rw [hcl] at hmem
        simp only [List.mem_singleton] at hmem
        exact Or.inl (Effect.sendTo.inj hmem).2
    | some client =>
        rw [hcl] at hmem
        cases hp : m.pos with
        | none =>
            rw [hp] at hmem
            simp only [List.mem_singleton] at hmem
            exact Or.inr (Effect.sendTo.inj hmem).2
        | some pos =>
            rw [hp] at hmem
            cases hq : m.quat with
            | none =>
                rw [hq] at hmem
                simp only [List.mem_singleton] at hmem
                exact Or.inr (Effect.sendTo.inj hmem).2
            | some quat =>
                rw [hq] at hmem
                by_cases hpt : m.plantType = ""
                · simp only [hpt, if_true, List.mem_singleton] at hmem
                  exact Or.inr (Effect.sendTo.inj hmem).2
                · simp only [hpt, if_false] at hmem
                  exact absurd hmem
                    (sendTo_excluded_not_mem_broadcast _ _ _ _ _)
  · intro s ws now msg hmem
    unfold handleDisconnect at hmem
    cases hcl : lookupA s.clients ws with
    | none =>
        simp only [hcl] at hmem
        exact absurd hmem (List.not_mem_nil _)
    | some client =>
        simp only [hcl] at hmem
        cases hr : lookupA s.rooms client.room with
        | none =>
            simp only [hr] at hmem
            exact absurd hmem (List.not_mem_nil _)
        | some members =>
            simp only [hr] at hmem
            by_cases hemp : setDelete members ws = []
            · simp [hemp] at hmem
            · simp only [hemp, if_false] at hmem
              rw [mem_broadcastToRoom, lookupA_insertA_self] at hmem
              obtain ⟨c, hc, _, he⟩ := hmem
              rw [Option.getD_some, mem_setDelete] at hc
              exact hc.2 (Effect.sendTo.inj he).1.symm

/-- Witness for C6: client 0 joins room "r" that already holds client 1;
the ack reaches the sender and the join reaches the other member exactly
once. -/
theorem C6_broadcasts_exclude_sender_witness :
    Effect.sendTo 0 (OutMsg.helloAck "a" "r") ∈
      (handleHello ⟨[("r", [1])], [(1, ⟨"b", "r", 0, none⟩)]⟩ 0 "a"
        (some "r") 7).2 ∧
    List.count (Effect.sendTo 1 (OutMsg.joinMsg "a" 7))
      (handleHello ⟨[("r", [1])], [(1, ⟨"b", "r", 0, none⟩)]⟩ 0 "a"
        (some "r") 7).2 = 1 := by
  have hwf : roomsWF ⟨[("r", [1])], [(1, ⟨"b", "r", 0, none⟩)]⟩ := by
    intro r2 ms hms
    simp only [lookupA] at hms
    by_cases h : "r" = r2
    · rw [if_pos h] at hms
      injection hms with h2
      subst h2
      simp
    · rw [if_neg h] at hms
      exact absurd hms (by simp)
  have h := C6_broadcasts_exclude_sender.1
    ⟨[("r", [1])], [(1, ⟨"b", "r", 0, none⟩)]⟩ 0 "a" "r" 7
    (by decide) hwf
  exact ⟨h.2.1, h.2.2.2 1 (by decide) (by decide)⟩

/-- C1: a snapshot arriving less than 40ms after the previous
rate-stamp of the session is silently dropped (no broadcast, no error, no
state change); a fresh session sending a burst whose later snapshots all
arrive less than 40ms after the first gets exactly one broadcast; and a
sequence of snapshots each arriving 40ms or more after the previous one
gets one broadcast per snapshot. -/
theorem C1_snapshot_rate_limit :
    (∀ (s : ServerState) (ws : Nat) (m : SnapshotMsg) (now : Nat)
        (client : ClientInfo) (last : Nat),
        lookupA s.clients ws = some client →
        client.lastSnapshot = some last → now - last < 40 →
        handleSnapshot s ws m now = (s, [])) ∧
    (∀ (s : ServerState) (ws : Nat) (m : SnapshotMsg) (t0 : Nat)
        (rest : List Nat) (client : ClientInfo) (peer : Nat),
        lookupA s.clients ws = some client →
        client.lastSnapshot = none →
        snapshotWellFormed m = true →
        peer ∈ (lookupA s.rooms client.room).getD [] →
        peer ≠ ws →
        (∀ t ∈ rest, t - t0 < 40) →
        (runSnaps s ws m (t0 :: rest)).2 = 1) ∧
    (∀ (s : ServerState) (ws : Nat) (m : SnapshotMsg) (ts : List Nat)
        (client : ClientInfo) (peer : Nat),
        lookupA s.clients ws = some client →
        snapshotWellFormed m = true →
        peer ∈ (lookupA s.rooms client.room).getD [] →
        peer ≠ ws →
        spacedFrom client.lastSnapshot ts = true →
        (runSnaps s ws m ts).2 = ts.length) := by
  refine ⟨handleSnapshot_drop, ?_, ?_⟩
  · intro s ws m t0 rest client peer hcl hlast hwfm hpeer hne hall
    have hrate : rateLimited client.lastSnapshot t0 = false := by
      rw [hlast]
      rfl
    obtain ⟨san, hsan⟩ := sanitizeSnapshot_isSome m t0 hwfm
    have hstate := handleSnapshot_accept_state s ws m t0 client hcl hrate
    have hmem := handleSnapshot_accept_mem s ws m t0 client san peer
      hcl hrate hsan hpeer hne
    have hne2 : (handleSnapshot s ws m t0).2 ≠ [] := by
      intro hempty
      rw [hempty] at hmem
      exact List.not_mem_nil _ hmem
    have hcl1 : lookupA (handleSnapshot s ws m t0).1.clients ws =
        some { client with lastSnapshot := some t0 } := by
      rw [hstate.1]
      exact lookupA_insertA_self _ _ _
    have hdrop := runSnaps_drop_all (handleSnapshot s ws m t0).1 ws m
      { client with lastSnapshot := some t0 } t0 rest hcl1 rfl hall
    simp [runSnaps, hne2, hdrop]
  · intro s ws m ts client peer hcl hwfm hpeer hne hsp
    exact runSnaps_spaced ws m peer ts s client hcl hwfm hpeer hne hsp

/-- Witness for C1: a fresh session in a two-member room sends a burst
at t = 100, 110, 139 (one broadcast) and a spaced sequence at
t = 100, 141, 181 (three broadcasts). -/
theorem C1_snapshot_rate_limit_witness :
    (runSnaps ⟨[("r", [0, 1])], [(0, ⟨"a", "r", 0, none⟩)]⟩ 0
      ⟨some 5, some ⟨some ⟨1, 2, 3⟩, some ⟨0, 0, 0, 1⟩⟩,
        some ⟨some ⟨0, 0, 0⟩, some ⟨0, 0, 0, 1⟩⟩,
        some ⟨some ⟨0, 0, 0⟩, some ⟨0, 0, 0, 1⟩⟩⟩
      [100, 110, 139]).2 = 1 ∧
    (runSnaps ⟨[("r", [0, 1])], [(0, ⟨"a", "r", 0, none⟩)]⟩ 0
      ⟨some 5, some ⟨some ⟨1, 2, 3⟩, some ⟨0, 0, 0, 1⟩⟩,
        some ⟨some ⟨0, 0, 0⟩, some ⟨0, 0, 0, 1⟩⟩,
        some ⟨some ⟨0, 0, 0⟩, some ⟨0, 0, 0, 1⟩⟩⟩
      [100, 141, 181]).2 = 3 :=
  ⟨C1_snapshot_rate_limit.2.1 ⟨[("r", [0, 1])],
      [(0, ⟨"a", "r", 0, none⟩)]⟩ 0 _ 100 [110, 139]
      ⟨"a", "r", 0, none⟩ 1 rfl rfl rfl (by decide) (by decide)
      (by decide),
   C1_snapshot_rate_limit.2.2 ⟨[("r", [0, 1])],
      [(0, ⟨"a", "r", 0, none⟩)]⟩ 0 _ [100, 141, 181]
      ⟨"a", "r", 0, none⟩ 1 rfl rfl (by decide) (by decide) rfl⟩

end FlowerShooter
